import Mathlib

/-!
Shallow embedding of `crates/egui/src/style.rs` (the egui theme module).

Machine scalars are embedded exactly: `u8` color channels and `f32` style
parameters are represented as rationals (every constant appearing in the
source is exactly representable), and the two `f32::INFINITY` constants used
by `ScrollAnimation` are represented by an explicit finite-or-infinite value
type.  Fallible code (`TextStyle::resolve`, which panics on a missing key)
is embedded with `Except`, the error carrying the list of available keys
that the panic message prints.
-/

namespace EguiStyle

/-- Embeds `ecolor::Color32`: four `u8` channels `[r, g, b, a]`, premultiplied
alpha.  Channels are embedded as exact rationals. -/
structure Color32 where
  r : ℚ
  g : ℚ
  b : ℚ
  a : ℚ
deriving DecidableEq, Repr

namespace Color32

/-- Embeds `Color32::TRANSPARENT`: all four channels zero. -/
def TRANSPARENT : Color32 := ⟨0, 0, 0, 0⟩

/-- Embeds `Color32::from_gray(l)`: opaque gray. -/
def from_gray (l : ℚ) : Color32 := ⟨l, l, l, 255⟩

/-- Embeds `Color32::from_rgb(r, g, b)`: opaque color. -/
def from_rgb (r g b : ℚ) : Color32 := ⟨r, g, b, 255⟩

/-- Embeds `Color32::WHITE`. -/
def WHITE : Color32 := from_gray 255

/-- Embeds `Color32::BLACK`. -/
def BLACK : Color32 := from_gray 0

/-- Modelled from the spec: `Color32::gamma_multiply` lives in the `ecolor`
crate, which is not part of this repository's sources.  The spec describes
its effect in the weak-text derivation as returning the same color "with its
alpha multiplied by `weak_text_alpha` (and no other perceptual change)"; on a
premultiplied color that is scaling the alpha channel by the factor. -/
def gamma_multiply (c : Color32) (factor : ℚ) : Color32 :=
  ⟨c.r, c.g, c.b, c.a * factor⟩

end Color32

/-- Embeds `epaint::Stroke`: a width and a color. -/
structure Stroke where
  width : ℚ
  color : Color32
deriving DecidableEq, Repr

namespace Stroke

/-- Embeds `Stroke::new(width, color)`. -/
def new (width : ℚ) (color : Color32) : Stroke := ⟨width, color⟩

/-- Embeds `Stroke::default()`: zero width, transparent color. -/
instance : Inhabited Stroke := ⟨⟨0, Color32.TRANSPARENT⟩⟩

end Stroke

/-- Embeds `epaint::CornerRadius`: one `u8` radius per corner. -/
structure CornerRadius where
  nw : ℚ
  ne : ℚ
  sw : ℚ
  se : ℚ
deriving DecidableEq, Repr

namespace CornerRadius

/-- Embeds `CornerRadius::same(r)`. -/
def same (radius : ℚ) : CornerRadius := ⟨radius, radius, radius, radius⟩

end CornerRadius

/-- Embeds `WidgetVisuals` (`style.rs`): the visual parameters of one widget
interaction state. -/
structure WidgetVisuals where
  bg_fill : Color32
  weak_bg_fill : Color32
  bg_stroke : Stroke
  corner_radius : CornerRadius
  fg_stroke : Stroke
  expansion : ℚ
deriving DecidableEq, Repr

namespace WidgetVisuals

/-- Embeds `WidgetVisuals::text_color`: the foreground-stroke color. -/
def text_color (v : WidgetVisuals) : Color32 := v.fg_stroke.color

end WidgetVisuals

/-- Modelled from the spec: `Response` is defined in `response.rs`, which is
not part of this repository's sources.  `Widgets::style` observes a response
only through six boolean predicates (`sense.interactive()`,
`is_pointer_button_down_on()`, `has_focus()`, `clicked()`, `hovered()`,
`highlighted()`), so a response is embedded as that record of observations. -/
structure Response where
  sense_interactive : Bool
  is_pointer_button_down_on : Bool
  has_focus : Bool
  clicked : Bool
  hovered : Bool
  highlighted : Bool
deriving DecidableEq, Repr

/-- Embeds `Widgets` (`style.rs`): one `WidgetVisuals` per interaction state. -/
structure Widgets where
  noninteractive : WidgetVisuals
  inactive : WidgetVisuals
  hovered : WidgetVisuals
  active : WidgetVisuals
  «open» : WidgetVisuals
deriving DecidableEq, Repr

namespace Widgets

/-- Embeds `Widgets::style` (`style.rs` lines 1165–1176): the widget-visual
classifier over a response's interaction flags. -/
def style (w : Widgets) (response : Response) : WidgetVisuals :=
  if !response.sense_interactive then
    w.noninteractive
  else if response.is_pointer_button_down_on || response.has_focus
      || response.clicked then
    w.active
  else if response.hovered || response.highlighted then
    w.hovered
  else
    w.inactive

end Widgets

/-- Embeds `Selection` (`style.rs`): visuals for selected text / elements. -/
structure Selection where
  bg_fill : Color32
  stroke : Stroke
deriving DecidableEq, Repr

/-- Embeds `FontFamily` (from `epaint::text`, as used by this module). -/
inductive FontFamily where
  | Proportional
  | Monospace
  | Name (name : String)
deriving DecidableEq, Repr, BEq

/-- Embeds `FontId`: a size and a font family. -/
structure FontId where
  size : ℚ
  family : FontFamily
deriving DecidableEq, Repr, BEq

namespace FontId

/-- Embeds `FontId::new(size, family)`. -/
def new (size : ℚ) (family : FontFamily) : FontId := ⟨size, family⟩

end FontId

/-- Embeds `TextStyle` (`style.rs`): the key type of `Style::text_styles`. -/
inductive TextStyle where
  | Small
  | Body
  | Monospace
  | Button
  | Heading
  | Name (name : String)
deriving DecidableEq, Repr, BEq

/-- Embeds `FontSelection` (`style.rs`). -/
inductive FontSelection where
  | Default
  | FontId (font_id : FontId)
  | Style (text_style : TextStyle)
deriving DecidableEq, Repr

/-- Embeds `Rangef` (from `emath`, as used by this module): an inclusive
`f32` range with `min` and `max` fields. -/
structure Rangef where
  min : ℚ
  max : ℚ
deriving DecidableEq, Repr

namespace Rangef

/-- Embeds `Rangef::new(min, max)`. -/
def new (min max : ℚ) : Rangef := ⟨min, max⟩

end Rangef

/-- An exact embedding of the `f32` values reachable in `ScrollAnimation`:
either a finite value (a rational) or positive infinity
(`f32::INFINITY`). -/
inductive FloatVal where
  | fin (q : ℚ)
  | infinity
deriving DecidableEq, Repr

/-- Embeds `ScrollStyle` (`style.rs`). -/
structure ScrollStyle where
  floating : Bool
  bar_width : ℚ
  handle_min_length : ℚ
  bar_inner_margin : ℚ
  bar_outer_margin : ℚ
  floating_width : ℚ
  floating_allocated_width : ℚ
  foreground_color : Bool
  dormant_background_opacity : ℚ
  active_background_opacity : ℚ
  interact_background_opacity : ℚ
  dormant_handle_opacity : ℚ
  active_handle_opacity : ℚ
  interact_handle_opacity : ℚ
deriving DecidableEq, Repr

namespace ScrollStyle

/-- Embeds `ScrollStyle::solid()` (`style.rs` lines 579–599). -/
def solid : ScrollStyle where
  floating := false
  bar_width := 6
  handle_min_length := 12
  bar_inner_margin := 4
  bar_outer_margin := 0
  floating_width := 2
  floating_allocated_width := 0
  foreground_color := false
  dormant_background_opacity := 0
  active_background_opacity := 0.4
  interact_background_opacity := 0.7
  dormant_handle_opacity := 0
  active_handle_opacity := 0.6
  interact_handle_opacity := 1

/-- Embeds `ScrollStyle::thin()`: functional-update syntax on `solid()`. -/
def thin : ScrollStyle :=
  { solid with
    floating := true
    bar_width := 10
    floating_allocated_width := 6
    foreground_color := false
    dormant_background_opacity := 1
    dormant_handle_opacity := 1
    active_background_opacity := 1
    active_handle_opacity := 1
    interact_background_opacity := 0.6
    interact_handle_opacity := 0.6 }

/-- Embeds `ScrollStyle::floating()`: functional-update syntax on `solid()`. -/
def floating_preset : ScrollStyle :=
  { solid with
    floating := true
    bar_width := 10
    foreground_color := true
    floating_allocated_width := 0
    dormant_background_opacity := 0
    dormant_handle_opacity := 0 }

/-- Embeds `ScrollStyle::allocated_width()` (`style.rs` lines 639–645). -/
def allocated_width (s : ScrollStyle) : ℚ :=
  if s.floating then
    s.floating_allocated_width
  else
    s.bar_inner_margin + s.bar_width + s.bar_outer_margin

end ScrollStyle

/-- Embeds `ScrollAnimation` (`style.rs`): speed and min/max duration of a
programmatic scroll.  `points_per_second` is a `FloatVal` because the
`none()` and `duration(t)` constructors store `f32::INFINITY` there. -/
structure ScrollAnimation where
  points_per_second : FloatVal
  duration : Rangef
deriving DecidableEq, Repr

namespace ScrollAnimation

/-- Embeds `ScrollAnimation::new(points_per_second, duration)`. -/
def new (points_per_second : FloatVal) (duration : Rangef) : ScrollAnimation :=
  ⟨points_per_second, duration⟩

/-- Embeds `ScrollAnimation::default()`. -/
def default : ScrollAnimation :=
  ⟨.fin 1000, Rangef.new 0.1 0.3⟩

/-- Embeds `ScrollAnimation::none()` (`style.rs` lines 785–790). -/
def none : ScrollAnimation :=
  ⟨.infinity, Rangef.new 0 0⟩

/-- Embeds `ScrollAnimation::duration(t)` (`style.rs` lines 793–798); named
`of_duration` here because the structure field `duration` already takes the
source name. -/
def of_duration (t : ℚ) : ScrollAnimation :=
  ⟨.infinity, Rangef.new t t⟩

end ScrollAnimation

/-- Embeds Rust's `f32::clamp(min, max)`: below the range gives `min`, above
gives `max`, inside gives the value itself. -/
def clampF (x lo hi : ℚ) : ℚ :=
  if x < lo then lo else if x > hi then hi else x

/-- Modelled from the spec: the scroll-duration computation itself lives in
`scroll_area.rs`, which is not part of this repository's sources.  The spec
states the duration is `distance / points_per_second`, clamped into the
animation's `[min, max]` duration range.  Division of a finite distance by
`f32::INFINITY` is exactly `0`. -/
def scroll_duration (anim : ScrollAnimation) (distance : ℚ) : ℚ :=
  match anim.points_per_second with
  | .infinity => clampF 0 anim.duration.min anim.duration.max
  | .fin p => clampF (distance / p) anim.duration.min anim.duration.max

/-- Embeds `Visuals` (`style.rs`), restricted to the fields read by the
operations verified here (the remaining fields of the Rust struct are
window/panel/tooltip parameters that none of these operations touch). -/
structure Visuals where
  dark_mode : Bool
  override_text_color : Option Color32
  weak_text_alpha : ℚ
  weak_text_color : Option Color32
  widgets : Widgets
  selection : Selection
deriving DecidableEq, Repr

/-- Embeds `Style` (`style.rs`), restricted to the fields read by the
operations verified here.  `text_styles` embeds the Rust `BTreeMap` as an
association list with distinct keys; `BTreeMap::get` is `List.lookup`. -/
structure Style where
  override_text_style : Option TextStyle
  override_font_id : Option FontId
  text_styles : List (TextStyle × FontId)
  visuals : Visuals
  scroll_animation : ScrollAnimation
deriving DecidableEq, Repr

namespace Style

/-- Embeds `Style::text_styles()`: all known text-style keys. -/
def text_styles_keys (style : Style) : List TextStyle :=
  style.text_styles.map Prod.fst

end Style

namespace TextStyle

/-- Embeds `TextStyle::resolve` (`style.rs` lines 110–118): look the style up
in `Style::text_styles`; on a missing key the Rust code panics with a message
listing the available styles, embedded as `Except.error` carrying that list
(`Style::text_styles()`). -/
def resolve (ts : TextStyle) (style : Style) : Except (List TextStyle) FontId :=
  match style.text_styles.lookup ts with
  | some font_id => .ok font_id
  | none => .error style.text_styles_keys

end TextStyle

namespace FontSelection

/-- Embeds `FontSelection::resolve` (`style.rs` lines 144–158). -/
def resolve (sel : FontSelection) (style : EguiStyle.Style) :
    Except (List TextStyle) EguiStyle.FontId :=
  match sel with
  | .Default =>
      match style.override_font_id with
      | some override_font_id => .ok override_font_id
      | none =>
          match style.override_text_style with
          | some text_style => text_style.resolve style
          | none => TextStyle.Body.resolve style
  | .FontId font_id => .ok font_id
  | .Style text_style => text_style.resolve style

end FontSelection

namespace Style

/-- Embeds `Style::interact` (`style.rs` lines 352–354): the classifier
applied to the style's widget visuals. -/
def interact (style : Style) (response : Response) : WidgetVisuals :=
  style.visuals.widgets.style response

/-- Embeds `Style::interact_selectable` (`style.rs` lines 356–365): the
classifier's result, with background fills and foreground stroke replaced by
the selection colors when `selected` (the `bg_stroke` assignment is commented
out in the source). -/
def interact_selectable (style : Style) (response : Response)
    (selected : Bool) : WidgetVisuals :=
  let visuals := style.visuals.widgets.style response
  if selected then
    { visuals with
      weak_bg_fill := style.visuals.selection.bg_fill
      bg_fill := style.visuals.selection.bg_fill
      fg_stroke := style.visuals.selection.stroke }
  else
    visuals

end Style

namespace Visuals

/-- Embeds `Visuals::text_color` (`style.rs` lines 1054–1057): the override
if present, else the noninteractive state's foreground-stroke color. -/
def text_color (v : Visuals) : Color32 :=
  v.override_text_color.getD v.widgets.noninteractive.text_color

/-- Embeds the method `Visuals::weak_text_color` (`style.rs` lines
1059–1062); named `weak_text_color_eff` here because the structure field
`weak_text_color` already takes the source name. -/
def weak_text_color_eff (v : Visuals) : Color32 :=
  v.weak_text_color.getD (v.text_color.gamma_multiply v.weak_text_alpha)

end Visuals

/-- Embeds `default_text_styles()` (`style.rs` lines 1293–1304). -/
def default_text_styles : List (TextStyle × FontId) :=
  [ (TextStyle.Small, FontId.new 9 .Proportional)
  , (TextStyle.Body, FontId.new 12.5 .Proportional)
  , (TextStyle.Button, FontId.new 12.5 .Proportional)
  , (TextStyle.Heading, FontId.new 18 .Proportional)
  , (TextStyle.Monospace, FontId.new 12 .Monospace) ]

namespace Widgets

/-- Embeds `Widgets::dark()` (`style.rs` lines 1510–1554). -/
def dark : Widgets where
  noninteractive :=
    { weak_bg_fill := Color32.from_gray 27
      bg_fill := Color32.from_gray 27
      bg_stroke := Stroke.new 1 (Color32.from_gray 60)
      fg_stroke := Stroke.new 1 (Color32.from_gray 140)
      corner_radius := CornerRadius.same 2
      expansion := 0 }
  inactive :=
    { weak_bg_fill := Color32.from_gray 60
      bg_fill := Color32.from_gray 60
      bg_stroke := default
      fg_stroke := Stroke.new 1 (Color32.from_gray 180)
      corner_radius := CornerRadius.same 2
      expansion := 0 }
  hovered :=
    { weak_bg_fill := Color32.from_gray 70
      bg_fill := Color32.from_gray 70
      bg_stroke := Stroke.new 1 (Color32.from_gray 150)
      fg_stroke := Stroke.new 1.5 (Color32.from_gray 240)
      corner_radius := CornerRadius.same 3
      expansion := 1 }
  active :=
    { weak_bg_fill := Color32.from_gray 55
      bg_fill := Color32.from_gray 55
      bg_stroke := Stroke.new 1 Color32.WHITE
      fg_stroke := Stroke.new 2 Color32.WHITE
      corner_radius := CornerRadius.same 2
      expansion := 1 }
  «open» :=
    { weak_bg_fill := Color32.from_gray 45
      bg_fill := Color32.from_gray 27
      bg_stroke := Stroke.new 1 (Color32.from_gray 60)
      fg_stroke := Stroke.new 1 (Color32.from_gray 210)
      corner_radius := CornerRadius.same 2
      expansion := 0 }

/-- Embeds `Widgets::light()` (`style.rs` lines 1555–1599). -/
def light : Widgets where
  noninteractive :=
    { weak_bg_fill := Color32.from_gray 248
      bg_fill := Color32.from_gray 248
      bg_stroke := Stroke.new 1 (Color32.from_gray 190)
      fg_stroke := Stroke.new 1 (Color32.from_gray 80)
      corner_radius := CornerRadius.same 2
      expansion := 0 }
  inactive :=
    { weak_bg_fill := Color32.from_gray 230
      bg_fill := Color32.from_gray 230
      bg_stroke := default
      fg_stroke := Stroke.new 1 (Color32.from_gray 60)
      corner_radius := CornerRadius.same 2
      expansion := 0 }
  hovered :=
    { weak_bg_fill := Color32.from_gray 220
      bg_fill := Color32.from_gray 220
      bg_stroke := Stroke.new 1 (Color32.from_gray 105)
      fg_stroke := Stroke.new 1.5 Color32.BLACK
      corner_radius := CornerRadius.same 3
      expansion := 1 }
  active :=
    { weak_bg_fill := Color32.from_gray 165
      bg_fill := Color32.from_gray 165
      bg_stroke := Stroke.new 1 Color32.BLACK
      fg_stroke := Stroke.new 2 Color32.BLACK
      corner_radius := CornerRadius.same 2
      expansion := 1 }
  «open» :=
    { weak_bg_fill := Color32.from_gray 220
      bg_fill := Color32.from_gray 220
      bg_stroke := Stroke.new 1 (Color32.from_gray 160)
      fg_stroke := Stroke.new 1 Color32.BLACK
      corner_radius := CornerRadius.same 2
      expansion := 0 }

end Widgets

namespace Selection

/-- Embeds `Selection::dark()`. -/
def dark : Selection :=
  ⟨Color32.from_rgb 0 92 128, Stroke.new 1 (Color32.from_rgb 192 222 255)⟩

/-- Embeds `Selection::light()`. -/
def light : Selection :=
  ⟨Color32.from_rgb 144 209 255, Stroke.new 1 (Color32.from_rgb 0 83 125)⟩

end Selection

namespace Visuals

/-- Embeds `Visuals::dark()` (`style.rs` lines 1377–1439), restricted to the
embedded fields; `widgets: Widgets::default()` is `Widgets::dark()` and
`selection: Selection::default()` is `Selection::dark()`. -/
def dark : Visuals where
  dark_mode := true
  override_text_color := none
  weak_text_alpha := 0.6
  weak_text_color := none
  widgets := Widgets.dark
  selection := Selection.dark

/-- Embeds `Visuals::light()` (`style.rs` lines 1440–1478), restricted to
the embedded fields: it overrides `widgets` and `selection` with the light
presets and inherits the rest from `Visuals::dark()`. -/
def light : Visuals :=
  { dark with
    dark_mode := false
    widgets := Widgets.light
    selection := Selection.light }

end Visuals

namespace Style

/-- Embeds `Style::default()` (`style.rs` lines 1306–1331), restricted to
the embedded fields; `visuals: Visuals::default()` is `Visuals::dark()`. -/
def default : Style where
  override_text_style := none
  override_font_id := none
  text_styles := default_text_styles
  visuals := Visuals.dark
  scroll_animation := ScrollAnimation.default

end Style

/-! ## Theorems -/

/-- C1: `Widgets::style` classifies a response by strict ordered precedence:
a non-interactive response gives the noninteractive entry regardless of all
other flags; else pointer-button-down, focus or click gives the active
entry; else hover or highlight gives the hovered entry; else the inactive
entry.  A focused-and-hovered interactive response is Active, never Hovered,
and the result is always one of the four entries (never the open entry). -/
theorem widgets_style_classification (w : Widgets) (r : Response) :
    (r.sense_interactive = false → w.style r = w.noninteractive)
    ∧ (r.sense_interactive = true →
        (r.is_pointer_button_down_on || r.has_focus || r.clicked) = true →
        w.style r = w.active)
    ∧ (r.sense_interactive = true →
        (r.is_pointer_button_down_on || r.has_focus || r.clicked) = false →
        (r.hovered || r.highlighted) = true →
        w.style r = w.hovered)
    ∧ (r.sense_interactive = true →
        (r.is_pointer_button_down_on || r.has_focus || r.clicked) = false →
        (r.hovered || r.highlighted) = false →
        w.style r = w.inactive)
    ∧ (r.sense_interactive = true → r.has_focus = true → r.hovered = true →
        w.style r = w.active)
    ∧ w.style r ∈ [w.noninteractive, w.active, w.hovered, w.inactive] := by
  rcases r with ⟨si, pd, hf, cl, ho, hi⟩
  cases si <;> cases pd <;> cases hf <;> cases cl <;> cases ho <;> cases hi <;>
    simp [Widgets.style]

/-- C1 witness: in the dark theme, a focused-and-hovered interactive
response (no button down, no click, no highlight) classifies as Active. -/
theorem widgets_style_classification_witness :
    Widgets.dark.style ⟨true, false, true, false, true, false⟩ =
      Widgets.dark.active :=
  (widgets_style_classification Widgets.dark
    ⟨true, false, true, false, true, false⟩).2.2.2.2.1 rfl rfl rfl

/-- C2: `FontSelection::Default` resolves with strict precedence: a set
`override_font_id` wins outright (even when `override_text_style` is also
set); else a set `override_text_style` is resolved; else `TextStyle::Body`
is resolved. -/
theorem font_selection_default_precedence (style : Style) :
    (∀ f, style.override_font_id = some f →
        FontSelection.Default.resolve style = .ok f)
    ∧ (style.override_font_id = none →
        ∀ ts, style.override_text_style = some ts →
        FontSelection.Default.resolve style = ts.resolve style)
    ∧ (style.override_font_id = none → style.override_text_style = none →
        FontSelection.Default.resolve style = TextStyle.Body.resolve style) := by
  cases hf : style.override_font_id <;> cases ht : style.override_text_style <;>
    simp [FontSelection.resolve, hf, ht]

/-- C2 witness: on the default style with both a font-id override and a
text-style override set, the font-id override wins; and with no overrides,
`Default` resolution equals `Body` resolution. -/
theorem font_selection_default_precedence_witness :
    FontSelection.Default.resolve
        { Style.default with
          override_font_id := some (FontId.new 20 .Monospace)
          override_text_style := some TextStyle.Heading } =
      .ok (FontId.new 20 .Monospace)
    ∧ FontSelection.Default.resolve Style.default =
        TextStyle.Body.resolve Style.default :=
  ⟨(font_selection_default_precedence _).1 _ rfl,
   (font_selection_default_precedence Style.default).2.2 rfl rfl⟩

/-- C3: `TextStyle::resolve` returns the `FontId` stored under the key when
present, and on a missing key aborts (embedded as `Except.error`) with the
list of available keys, never substituting a fallback `FontId`. -/
theorem text_style_resolve_spec (ts : TextStyle) (style : Style) :
    (∀ f, style.text_styles.lookup ts = some f →
        ts.resolve style = .ok f)
    ∧ (style.text_styles.lookup ts = none →
        ts.resolve style = .error style.text_styles_keys) := by
  cases h : style.text_styles.lookup ts <;> simp [TextStyle.resolve, h]

/-- C3 witness: on the default style, `Body` resolves to its stored font id,
and an absent custom key aborts with the five default keys. -/
theorem text_style_resolve_spec_witness :
    TextStyle.Body.resolve Style.default = .ok (FontId.new 12.5 .Proportional)
    ∧ (TextStyle.Name "missing").resolve Style.default =
        .error [TextStyle.Small, TextStyle.Body, TextStyle.Button,
          TextStyle.Heading, TextStyle.Monospace] :=
  ⟨(text_style_resolve_spec TextStyle.Body Style.default).1
      (FontId.new 12.5 .Proportional) rfl,
   (text_style_resolve_spec (TextStyle.Name "missing") Style.default).2 rfl⟩

/-- C4: `Style::interact_selectable` with `selected = true` replaces exactly
`weak_bg_fill` and `bg_fill` by the selection background fill and
`fg_stroke` by the selection stroke, leaving `bg_stroke`, `corner_radius`
and `expansion` equal to the plain classifier resolution. -/
theorem interact_selectable_selected_fields (style : Style) (r : Response) :
    (style.interact_selectable r true).weak_bg_fill =
        style.visuals.selection.bg_fill
    ∧ (style.interact_selectable r true).bg_fill =
        style.visuals.selection.bg_fill
    ∧ (style.interact_selectable r true).fg_stroke =
        style.visuals.selection.stroke
    ∧ (style.interact_selectable r true).bg_stroke =
        (style.interact r).bg_stroke
    ∧ (style.interact_selectable r true).corner_radius =
        (style.interact r).corner_radius
    ∧ (style.interact_selectable r true).expansion =
        (style.interact r).expansion := by
  simp [Style.interact_selectable, Style.interact]

/-- C5: in both the dark and the light widget preset, all five entries have
a `bg_fill` different from `Color32::TRANSPARENT`. -/
theorem theme_widgets_bg_fill_not_transparent :
    Widgets.dark.noninteractive.bg_fill ≠ Color32.TRANSPARENT
    ∧ Widgets.dark.inactive.bg_fill ≠ Color32.TRANSPARENT
    ∧ Widgets.dark.hovered.bg_fill ≠ Color32.TRANSPARENT
    ∧ Widgets.dark.active.bg_fill ≠ Color32.TRANSPARENT
    ∧ Widgets.dark.«open».bg_fill ≠ Color32.TRANSPARENT
    ∧ Widgets.light.noninteractive.bg_fill ≠ Color32.TRANSPARENT
    ∧ Widgets.light.inactive.bg_fill ≠ Color32.TRANSPARENT
    ∧ Widgets.light.hovered.bg_fill ≠ Color32.TRANSPARENT
    ∧ Widgets.light.active.bg_fill ≠ Color32.TRANSPARENT
    ∧ Widgets.light.«open».bg_fill ≠ Color32.TRANSPARENT := by
  decide

/-- C6: `default_text_styles()` (used by `Style::default()`) contains all
five baseline keys, so resolving each of Small, Body, Monospace, Button and
Heading against the default style succeeds with the stored font id (the
missing-key failure branch is unreachable for these keys). -/
theorem default_text_styles_baseline_keys :
    TextStyle.Small.resolve Style.default = .ok (FontId.new 9 .Proportional)
    ∧ TextStyle.Body.resolve Style.default =
        .ok (FontId.new 12.5 .Proportional)
    ∧ TextStyle.Monospace.resolve Style.default =
        .ok (FontId.new 12 .Monospace)
    ∧ TextStyle.Button.resolve Style.default =
        .ok (FontId.new 12.5 .Proportional)
    ∧ TextStyle.Heading.resolve Style.default =
        .ok (FontId.new 18 .Proportional) :=
  ⟨rfl, rfl, rfl, rfl, rfl⟩

/-- C7: `ScrollStyle::allocated_width()` returns
`floating_allocated_width` for floating styles and
`bar_inner_margin + bar_width + bar_outer_margin` for solid styles; the
floating preset (whose `floating_allocated_width` is 0) yields 0 and the
solid preset (margins 4, 6, 0) yields 10. -/
theorem scroll_style_allocated_width_spec (s : ScrollStyle) :
    (s.floating = true → s.allocated_width = s.floating_allocated_width)
    ∧ (s.floating = false →
        s.allocated_width =
          s.bar_inner_margin + s.bar_width + s.bar_outer_margin)
    ∧ ScrollStyle.floating_preset.allocated_width = 0
    ∧ ScrollStyle.solid.allocated_width = 10 := by
  refine ⟨?_, ?_,
    by norm_num [ScrollStyle.allocated_width, ScrollStyle.floating_preset,
      ScrollStyle.solid],
    by norm_num [ScrollStyle.allocated_width, ScrollStyle.solid]⟩ <;>
    · intro h; simp [ScrollStyle.allocated_width, h]

/-- C7 witness: applying the branch laws at the two presets: the solid
preset takes the margin-sum branch and the floating preset returns its
allocated width. -/
theorem scroll_style_allocated_width_spec_witness :
    ScrollStyle.solid.allocated_width =
      ScrollStyle.solid.bar_inner_margin + ScrollStyle.solid.bar_width
        + ScrollStyle.solid.bar_outer_margin
    ∧ ScrollStyle.floating_preset.allocated_width =
        ScrollStyle.floating_preset.floating_allocated_width :=
  ⟨(scroll_style_allocated_width_spec ScrollStyle.solid).2.1 rfl,
   (scroll_style_allocated_width_spec ScrollStyle.floating_preset).1 rfl⟩

/-- C8: `ScrollAnimation::none()` has duration range `[0, 0]` and infinite
speed, so the resulting scroll duration is 0 regardless of distance; and
`ScrollAnimation::duration(t)` has duration range `[t, t]` and infinite
speed, so the resulting scroll duration is exactly `t` regardless of
distance. -/
theorem scroll_animation_presets_spec :
    (ScrollAnimation.none.duration = Rangef.new 0 0
      ∧ ScrollAnimation.none.points_per_second = .infinity
      ∧ ∀ d : ℚ, scroll_duration ScrollAnimation.none d = 0)
    ∧ ∀ t : ℚ,
        (ScrollAnimation.of_duration t).duration = Rangef.new t t
        ∧ (ScrollAnimation.of_duration t).points_per_second = .infinity
        ∧ ∀ d : ℚ, scroll_duration (ScrollAnimation.of_duration t) d = t := by
  refine ⟨⟨rfl, rfl, fun d => by simp [scroll_duration, clampF,
    ScrollAnimation.none, Rangef.new]⟩, fun t => ⟨rfl, rfl, fun d => ?_⟩⟩
  simp only [scroll_duration, ScrollAnimation.of_duration, Rangef.new, clampF]
  rcases lt_trichotomy (0 : ℚ) t with h | h | h
  · simp [h]
  · simp [h]
  · simp [h, not_lt_of_gt h, le_of_lt h]

/-- C9: `Visuals::weak_text_color()` returns the explicit `weak_text_color`
field when set, else the effective text color (the override if present, else
the noninteractive foreground-stroke color) with its alpha multiplied by
`weak_text_alpha`. -/
theorem visuals_weak_text_color_spec (v : Visuals) :
    (∀ c, v.weak_text_color = some c → v.weak_text_color_eff = c)
    ∧ (v.weak_text_color = none →
        v.weak_text_color_eff = v.text_color.gamma_multiply v.weak_text_alpha)
    ∧ (∀ c, v.override_text_color = some c → v.text_color = c)
    ∧ (v.override_text_color = none →
        v.text_color = v.widgets.noninteractive.fg_stroke.color) := by
  cases hw : v.weak_text_color <;> cases ho : v.override_text_color <;>
    simp [Visuals.weak_text_color_eff, Visuals.text_color,
      WidgetVisuals.text_color, hw, ho]

/-- C9 witness: the dark theme sets no explicit weak-text color and no
text-color override, so its weak-text color is the noninteractive
foreground color with alpha multiplied by `weak_text_alpha`. -/
theorem visuals_weak_text_color_spec_witness :
    Visuals.dark.weak_text_color_eff =
      Visuals.dark.text_color.gamma_multiply Visuals.dark.weak_text_alpha
    ∧ Visuals.dark.text_color =
        Visuals.dark.widgets.noninteractive.fg_stroke.color :=
  ⟨(visuals_weak_text_color_spec Visuals.dark).2.1 rfl,
   (visuals_weak_text_color_spec Visuals.dark).2.2.2 rfl⟩

/-- C10: `Style::interact_selectable` with `selected = false` is exactly
`Style::interact`: no field is modified. -/
theorem interact_selectable_unselected_eq_interact (style : Style)
    (r : Response) :
    style.interact_selectable r false = style.interact r := rfl

end EguiStyle
